import Mathlib

/-!
Verification of the water-quality dashboard core (DashboardAgua).

Shallow embedding of the two core modules:
* utils/helpers.py — quality classification and the composite quality index;
* data_generator.py — seeded synthetic data generation and anomaly injection.

Conventions of the embedding:
* Python floats are modelled as exact rationals.  At every boundary value the
  claims exercise (for instance 6.5 * 0.8 = 5.2) the double-precision result
  coincides with the exact rational one, which was checked by hand.
* Timestamps are modelled as whole hours since an epoch aligned to midnight
  (an Int), matching the hourly sampling grid of pandas date_range; hour of
  day is the value mod 24 and day of year is derived modularly (calendar leap
  structure is irrelevant to every claim below).
* NumPy's globally seeded Mersenne-Twister stream is modelled as an explicit
  state (a Nat) threaded through the generation in exactly the order the
  source consumes draws: one seeding per generator construction, then
  sequentially two baseline draws per station followed by eight draws per
  tick.  The concrete pseudo-random function (a linear congruential step) is
  a stand-in for MT19937: no claim below depends on the numeric values of
  the stream, only on its determinism and its sequential consumption.
* np.sin(2*pi*x) is modelled by a computable periodic stand-in with period 1
  and range [-1, 1]; no claim depends on its exact values.
-/

namespace Dashboard

/-! ## utils/helpers.py -/

/-- Lookup table of (min, max) acceptable range per parameter, from
get_quality_status in utils/helpers.py. -/
def limits : List (String × ℚ × ℚ) :=
  [("ph", 6.5, 8.5),
   ("turbidity", 0, 5),
   ("dissolved_oxygen", 6, 14),
   ("temperature", 0, 30),
   ("conductivity", 0, 400),
   ("nitrates", 0, 10)]

/-- get_quality_status(value, param) from utils/helpers.py: unknown parameter
names map to "unknown"; in-range values to "good"; values at or beyond 80% of
the minimum or 120% of the maximum to "critical"; the rest to "warning". -/
def get_quality_status (value : ℚ) (param : String) : String :=
  match limits.lookup param with
  | none => "unknown"
  | some (min_val, max_val) =>
    if min_val ≤ value ∧ value ≤ max_val then "good"
    else if value ≤ min_val * 0.8 ∨ value ≥ max_val * 1.2 then "critical"
    else "warning"

/-- Parameter weights of calculate_quality_index in utils/helpers.py. -/
def weights : List (String × ℚ) :=
  [("ph", 0.2), ("turbidity", 0.2), ("dissolved_oxygen", 0.3),
   ("temperature", 0.1), ("conductivity", 0.2)]

/-- Contribution of one (param, value) entry to the quality-index score:
weighted parameters contribute weight*100 when good and weight*50 when
warning, and 0 otherwise; unweighted parameters contribute 0.  This is the
loop body of calculate_quality_index in utils/helpers.py. -/
def indexContribution (param : String) (value : ℚ) : ℚ :=
  match weights.lookup param with
  | none => 0
  | some w =>
    if get_quality_status value param = "good" then w * 100
    else if get_quality_status value param = "warning" then w * 50
    else 0

/-- calculate_quality_index(readings) from utils/helpers.py: fold the
contributions over the readings mapping, then clamp to [0, 100].  The Python
dict is modelled as an association list iterated in order. -/
def calculate_quality_index (readings : List (String × ℚ)) : ℚ :=
  let score := readings.foldl (fun acc pv => acc + indexContribution pv.1 pv.2) 0
  min 100 (max 0 score)

/-- Modelled from the words of the spec, for comparison with the source
function: the quality index is the clamp to [0,100] of the sum, over the
weighted parameters present in the mapping, of weight*100 for a good value
and weight*50 for a warning value (critical and unknown contribute 0). -/
def specQualityIndex (readings : List (String × ℚ)) : ℚ :=
  min 100 (max 0 ((readings.map (fun pv => indexContribution pv.1 pv.2)).sum))

/-! ## data_generator.py — data model -/

/-- One generated reading, the dict built per tick in
_generate_station_data.  Numeric values are exact rationals; the timestamp
is whole hours since the epoch. -/
structure Reading where
  timestamp : Int
  station : String
  location : String
  ph : ℚ
  turbidity : ℚ
  dissolved_oxygen : ℚ
  temperature : ℚ
  conductivity : ℚ
  total_dissolved_solids : ℚ
  nitrates : ℚ
  status : String
deriving DecidableEq, Inhabited

/-- Per-station configuration, the dict entries of DEFAULT_STATIONS. -/
structure StationConfig where
  name : String
  location : String
  base_ph : ℚ
  base_temp : ℚ
deriving DecidableEq

/-- DEFAULT_STATIONS of WaterQualityDataGenerator. -/
def DEFAULT_STATIONS : List StationConfig :=
  [⟨"Estação A", "Rio Principal", 7.0, 22⟩,
   ⟨"Estação B", "Afluente Norte", 6.8, 20⟩,
   ⟨"Estação C", "Afluente Sul", 7.2, 24⟩,
   ⟨"Estação D", "Reservatório", 7.1, 23⟩,
   ⟨"Estação E", "Estação de Tratamento", 7.0, 21⟩]

/-! ## data_generator.py — random stream model

np.random.seed(seed) followed by sequential draws is modelled as an explicit
Nat state advanced by a linear congruential step once per draw.  Every NumPy
sampling call (normal, exponential, choice) consumes exactly one step of the
modelled stream and derives its value from the state it consumed; the state
advance never depends on the distribution parameters, mirroring the fact
that the NumPy stream position depends only on the sequence of sampling
calls made. -/

/-- One step of the modelled pseudo-random stream (an LCG stand-in for the
MT19937 state advance). -/
def lcgStep (s : Nat) : Nat := (s * 1103515245 + 12345) % 4294967296

/-- A uniform draw in [0, 1) together with the advanced stream state. -/
def npUniform (s : Nat) : ℚ × Nat :=
  (((lcgStep s % 1000 : Nat) : ℚ) / 1000, lcgStep s)

/-- np.random.normal(mu, sigma): one stream draw, value mu + sigma*z with z
a bounded stand-in for a standard normal deviate. -/
def npNormal (s : Nat) (mu sigma : ℚ) : ℚ × Nat :=
  let (u, s) := npUniform s
  (mu + sigma * (2 * u - 1), s)

/-- np.random.exponential(beta): one stream draw, nonnegative value. -/
def npExponential (s : Nat) (beta : ℚ) : ℚ × Nat :=
  let (u, s) := npUniform s
  (beta * u, s)

/-- np.random.seed(seed): the state the stream starts from, as set in
WaterQualityDataGenerator.__init__. -/
def npSeed (seed : Nat) : Nat := lcgStep seed

/-! ## data_generator.py — per-tick computations -/

/-- np.clip(x, lo, hi). -/
def npClip (x lo hi : ℚ) : ℚ := min hi (max lo x)

/-- Source method _calculate_ph: clip(base + 0.5*hour_factor + noise, 4.0, 10.0). -/
def calculate_ph (base hour_factor noise : ℚ) : ℚ :=
  npClip (base + 0.5 * hour_factor + noise) 4.0 10.0

/-- Source method _calculate_turbidity: max(0, 2 + 3*Exp(0.5) + hour_factor*0.5). -/
def calculate_turbidity (hour_factor : ℚ) (s : Nat) : ℚ × Nat :=
  let (e, s) := npExponential s 0.5
  (max 0 (2 + 3 * e + hour_factor * 0.5), s)

/-- Source method _calculate_dissolved_oxygen: max(0, 8 - 0.5*hour_factor + N(0, 0.5)). -/
def calculate_dissolved_oxygen (hour_factor : ℚ) (s : Nat) : ℚ × Nat :=
  let (z, s) := npNormal s 0 0.5
  (max 0 (8 - 0.5 * hour_factor + z), s)

/-- Source method _calculate_temperature: base + 3*hour_factor + 5*day_factor + N(0, 0.5)
(no clamp). -/
def calculate_temperature (base hour_factor day_factor : ℚ) (s : Nat) : ℚ × Nat :=
  let (z, s) := npNormal s 0 0.5
  (base + 3 * hour_factor + 5 * day_factor + z, s)

/-- Source method _calculate_conductivity: max(0, 200 + 50*N(0,1) + 20*hour_factor). -/
def calculate_conductivity (hour_factor : ℚ) (s : Nat) : ℚ × Nat :=
  let (z, s) := npNormal s 0 1
  (max 0 (200 + 50 * z + 20 * hour_factor), s)

/-- Source method _calculate_tds: max(0, 150 + 30*N(0,1)). -/
def calculate_tds (s : Nat) : ℚ × Nat :=
  let (z, s) := npNormal s 0 1
  (max 0 (150 + 30 * z), s)

/-- Source method _calculate_nitrates: max(0, 2 + 3*N(0,1)). -/
def calculate_nitrates (s : Nat) : ℚ × Nat :=
  let (z, s) := npNormal s 0 1
  (max 0 (2 + 3 * z), s)

/-- Source method _determine_status: np.random.choice over Normal/Alerta/Crítico with
probabilities 0.85, 0.12, 0.03, modelled as one uniform draw against the
cumulative probabilities. -/
def determine_status (s : Nat) : String × Nat :=
  let (u, s) := npUniform s
  (if u < 0.85 then "Normal" else if u < 0.97 then "Alerta" else "Crítico", s)

/-! ## data_generator.py — time grid -/

/-- Computable periodic stand-in for np.sin(2*pi*x): period 1, range
[-1, 1] (a triangle wave).  No claim below depends on its values. -/
def sin2pi (x : ℚ) : ℚ :=
  let t := x - ⌊x⌋
  if t ≤ 0.25 then 4 * t else if t ≤ 0.75 then 2 - 4 * t else 4 * t - 4

/-- Hour of day of a timestamp (date.hour in the source). -/
def hourOf (t : Int) : Int := t.emod 24

/-- Day of year of a timestamp (date.timetuple().tm_yday in the source),
modelled modularly over a 365-day year. -/
def dayOfYearOf (t : Int) : Int := (t.ediv 24).emod 365 + 1

/-- pd.date_range(start, end, freq): the inclusive arithmetic grid of
timestamps from start to stop with the given positive step in hours; empty
when start is after stop. -/
def dateRange (start stop : Int) (step : Nat) : List Int :=
  if start ≤ stop then
    (List.range ((stop - start).toNat / step + 1)).map
      (fun i : Nat => start + (step : Int) * (i : Int))
  else []

/-- Sampling frequency: 'H' (hourly) or 'D' (daily). -/
inductive Freq where
  | H : Freq
  | D : Freq
deriving DecidableEq

/-- Step in hours of a sampling frequency. -/
def Freq.step : Freq → Nat
  | .H => 1
  | .D => 24

/-! ## data_generator.py — generation -/

/-- One tick of the loop body of _generate_station_data: the temporal
factors, the daily noise draw, and the reading dict, consuming exactly eight
stream draws in source order (noise, turbidity, dissolved oxygen,
temperature, conductivity, tds, nitrates, status). -/
def generateTick (name location : String) (base_ph base_temp : ℚ)
    (date : Int) (s : Nat) : Reading × Nat :=
  let hour_factor := sin2pi ((hourOf date : ℚ) / 24)
  let day_factor := sin2pi ((dayOfYearOf date : ℚ) / 365)
  let (daily_noise, s) := npNormal s 0 0.2
  let ph := calculate_ph base_ph hour_factor daily_noise
  let (turbidity, s) := calculate_turbidity hour_factor s
  let (dox, s) := calculate_dissolved_oxygen hour_factor s
  let (temperature, s) := calculate_temperature base_temp hour_factor day_factor s
  let (conductivity, s) := calculate_conductivity hour_factor s
  let (tds, s) := calculate_tds s
  let (nitrates, s) := calculate_nitrates s
  let (status, s) := determine_status s
  (⟨date, name, location, ph, turbidity, dox, temperature, conductivity,
    tds, nitrates, status⟩, s)

/-- The tick loop of _generate_station_data over the date grid. -/
def generateTicks (name location : String) (base_ph base_temp : ℚ) :
    List Int → Nat → List Reading × Nat
  | [], s => ([], s)
  | d :: ds, s =>
    let step := generateTick name location base_ph base_temp d s
    let rest := generateTicks name location base_ph base_temp ds step.2
    (step.1 :: rest.1, rest.2)

/-- Source method _generate_station_data: draw the two per-station baseline perturbations
(pH then temperature), then generate one reading per date. -/
def generate_station_data (cfg : StationConfig) (dates : List Int)
    (s : Nat) : List Reading × Nat :=
  let (z1, s) := npNormal s 0 0.3
  let base_ph := cfg.base_ph + z1
  let (z2, s) := npNormal s 0 2
  let base_temp := cfg.base_temp + z2
  generateTicks cfg.name cfg.location base_ph base_temp dates s

/-- The station loop of generate: stations in list order, each extending the
data with its readings and passing the stream state on. -/
def generateStations : List StationConfig → List Int → Nat → List Reading × Nat
  | [], _, s => ([], s)
  | c :: cs, dates, s =>
    let block := generate_station_data c dates s
    let rest := generateStations cs dates block.2
    (block.1 ++ rest.1, rest.2)

/-- WaterQualityDataGenerator.generate(days, stations, frequency): the date
grid is pd.date_range(now - days, now, freq), and the rows are the
concatenation of the per-station data in list order.  The wall-clock anchor
datetime.now() is the explicit parameter now (in hours); the stream state is
the explicit parameter s. -/
def generate (days : Int) (stations : List StationConfig) (freq : Freq)
    (now : Int) (s : Nat) : List Reading × Nat :=
  let start_date := now - 24 * days
  let dates := dateRange start_date now freq.step
  generateStations stations dates s

/-- One whole invocation on a freshly seeded generator:
WaterQualityDataGenerator(seed=seed).generate(days, stations, frequency)
evaluated when datetime.now() is the instant now. -/
def runGenerate (seed : Nat) (days : Int) (stations : List StationConfig)
    (freq : Freq) (now : Int) : List Reading :=
  (generate days stations freq now (npSeed seed)).1

/-! ## data_generator.py — anomaly injection -/

/-- The numeric parameter columns of a Reading that add_anomaly may target. -/
inductive Param where
  | ph | turbidity | dissolved_oxygen | temperature
  | conductivity | total_dissolved_solids | nitrates
deriving DecidableEq

/-- Value of a numeric parameter column of a reading. -/
def Reading.get (r : Reading) : Param → ℚ
  | .ph => r.ph
  | .turbidity => r.turbidity
  | .dissolved_oxygen => r.dissolved_oxygen
  | .temperature => r.temperature
  | .conductivity => r.conductivity
  | .total_dissolved_solids => r.total_dissolved_solids
  | .nitrates => r.nitrates

/-- Update of a numeric parameter column of a reading. -/
def Reading.set (r : Reading) (p : Param) (f : ℚ → ℚ) : Reading :=
  match p with
  | .ph => { r with ph := f r.ph }
  | .turbidity => { r with turbidity := f r.turbidity }
  | .dissolved_oxygen => { r with dissolved_oxygen := f r.dissolved_oxygen }
  | .temperature => { r with temperature := f r.temperature }
  | .conductivity => { r with conductivity := f r.conductivity }
  | .total_dissolved_solids => { r with total_dissolved_solids := f r.total_dissolved_solids }
  | .nitrates => { r with nitrates := f r.nitrates }

/-- Severity multiplier table of add_anomaly. -/
def multipliers : List (String × ℚ) := [("low", 1.3), ("medium", 1.6), ("high", 2.0)]

/-- multipliers.get(severity, 1.5). -/
def severityMultiplier (severity : String) : ℚ :=
  (multipliers.lookup severity).getD 1.5

/-- The row mask of add_anomaly: station matches and the timestamp lies in
the inclusive window [start_time, start_time + duration_hours]. -/
def anomalyMask (station : String) (start_time : Int) (duration_hours : Int)
    (r : Reading) : Prop :=
  r.station = station ∧ start_time ≤ r.timestamp ∧
    r.timestamp ≤ start_time + duration_hours

instance (station : String) (t0 d : Int) (r : Reading) :
    Decidable (anomalyMask station t0 d r) := by
  unfold anomalyMask; infer_instance

/-- add_anomaly(df, station, parameter, start_time, duration_hours,
severity): a copy of the dataset in which the masked rows have the chosen
parameter multiplied by the severity factor. -/
def add_anomaly (df : List Reading) (station : String) (parameter : Param)
    (start_time : Int) (duration_hours : Int) (severity : String) :
    List Reading :=
  df.map (fun r =>
    if anomalyMask station start_time duration_hours r then
      r.set parameter (· * severityMultiplier severity)
    else r)

/-! ## Theorems about the scorer -/

/-- C3: get_quality_status returns "good" iff min ≤ value ≤ max for the
parameter's table range, "critical" iff (not good and value ≤ 0.8*min or
value ≥ 1.2*max), "warning" otherwise, and "unknown" for every parameter
name not in the table; in particular classify(6.5, ph) = good,
classify(5.2, ph) = critical, classify(6.0, ph) = warning and
classify(1.0, xyz) = unknown. -/
theorem quality_status_correct :
    (∀ p mn mx, limits.lookup p = some (mn, mx) → ∀ v : ℚ,
      (get_quality_status v p = "good" ↔ mn ≤ v ∧ v ≤ mx) ∧
      (get_quality_status v p = "critical" ↔
        ¬(mn ≤ v ∧ v ≤ mx) ∧ (v ≤ mn * 0.8 ∨ v ≥ mx * 1.2)) ∧
      (get_quality_status v p = "warning" ↔
        ¬(mn ≤ v ∧ v ≤ mx) ∧ ¬(v ≤ mn * 0.8 ∨ v ≥ mx * 1.2))) ∧
    (∀ p, limits.lookup p = none → ∀ v : ℚ, get_quality_status v p = "unknown") ∧
    get_quality_status 6.5 "ph" = "good" ∧
    get_quality_status 5.2 "ph" = "critical" ∧
    get_quality_status 6.0 "ph" = "warning" ∧
    get_quality_status 1.0 "xyz" = "unknown" := by
  refine ⟨?_, ?_, ?_, ?_, ?_, ?_⟩
  · intro p mn mx h v
    simp only [get_quality_status, h]
    refine ⟨?_, ?_, ?_⟩ <;> split_ifs with h1 h2 <;> simp_all
  · intro p h v
    simp only [get_quality_status, h]
  · simp +decide [get_quality_status, limits, List.lookup] <;> norm_num
  · simp +decide [get_quality_status, limits, List.lookup] <;> norm_num
  · simp +decide [get_quality_status, limits, List.lookup] <;> norm_num
  · simp +decide [get_quality_status, limits, List.lookup] <;> norm_num

/-- Witness for quality_status_correct: its two hypothetical parts applied at
a concrete lookup result and at a concrete absent parameter name. -/
theorem quality_status_correct_witness :
    get_quality_status 7 "ph" = "good" ∧ get_quality_status 3 "xyz" = "unknown" :=
  ⟨((quality_status_correct.1 "ph" 6.5 8.5
      (by simp +decide [limits, List.lookup]) 7).1).mpr (by norm_num),
   quality_status_correct.2.1 "xyz" (by simp +decide [limits, List.lookup]) 3⟩

/-- C10: for every parameter whose table minimum is 0 (turbidity,
temperature, conductivity, nitrates), classify(0, parameter) = good — the
in-range branch takes precedence over the critical branch even though
0 ≤ 0.8*min also holds there — while every strictly negative value for these
parameters classifies critical. -/
theorem zero_minimum_boundary :
    (get_quality_status 0 "turbidity" = "good" ∧
     get_quality_status 0 "temperature" = "good" ∧
     get_quality_status 0 "conductivity" = "good" ∧
     get_quality_status 0 "nitrates" = "good") ∧
    (∀ v : ℚ, v < 0 →
      get_quality_status v "turbidity" = "critical" ∧
      get_quality_status v "temperature" = "critical" ∧
      get_quality_status v "conductivity" = "critical" ∧
      get_quality_status v "nitrates" = "critical") := by
  constructor
  · refine ⟨?_, ?_, ?_, ?_⟩ <;> simp +decide [get_quality_status, limits, List.lookup]
  · intro v hv
    refine ⟨?_, ?_, ?_, ?_⟩ <;>
      · simp +decide [get_quality_status, limits, List.lookup]
        split_ifs with h1 h2 <;> simp_all <;> linarith

/-- Witness for zero_minimum_boundary: its hypothetical part applied at the
concrete negative value -1. -/
theorem zero_minimum_boundary_witness :
    (-1 : ℚ) < 0 ∧ get_quality_status (-1) "turbidity" = "critical" ∧
      get_quality_status (-1) "temperature" = "critical" ∧
      get_quality_status (-1) "conductivity" = "critical" ∧
      get_quality_status (-1) "nitrates" = "critical" :=
  ⟨by norm_num, zero_minimum_boundary.2 (-1) (by norm_num)⟩

/-- C4: calculate_quality_index equals the clamp to [0,100] of the sum of
the per-parameter weighted contributions (weight*100 for good, weight*50 for
warning, 0 for critical and unknown, parameters outside the weight table
skipped); the all-good example evaluates to exactly 100; and the result
always lies in [0, 100]. -/
theorem quality_index_correct :
    (∀ readings : List (String × ℚ),
      calculate_quality_index readings = specQualityIndex readings ∧
      0 ≤ calculate_quality_index readings ∧
      calculate_quality_index readings ≤ 100) ∧
    calculate_quality_index
      [("ph", 7), ("turbidity", 2), ("dissolved_oxygen", 8),
       ("temperature", 22), ("conductivity", 200)] = 100 := by
  constructor
  · intro readings
    refine ⟨?_, ?_, ?_⟩
    · simp only [calculate_quality_index, specQualityIndex, List.sum_eq_foldl,
        List.foldl_map]
    · exact le_min (by norm_num) (le_max_left 0 _)
    · exact min_le_left _ _
  · simp +decide [calculate_quality_index, indexContribution, get_quality_status,
      weights, limits, List.lookup, List.foldl]
    norm_num

/-! ## Structural lemmas about the generator -/

/-- Unfolding of the tick loop on a cons cell. -/
theorem generateTicks_cons (n l : String) (bp bt : ℚ) (d : Int) (ds : List Int) (s : Nat) :
    generateTicks n l bp bt (d :: ds) s =
      ((generateTick n l bp bt d s).1 ::
        (generateTicks n l bp bt ds (generateTick n l bp bt d s).2).1,
       (generateTicks n l bp bt ds (generateTick n l bp bt d s).2).2) := rfl

/-- The tick loop produces one reading per date. -/
theorem generateTicks_length (n l : String) (bp bt : ℚ) (ds : List Int) (s : Nat) :
    ((generateTicks n l bp bt ds s).1).length = ds.length := by
  induction ds generalizing s with
  | nil => rfl
  | cons d ds ih => simp [generateTicks_cons, ih]

/-- The timestamps of a station block are exactly the date grid, in order. -/
theorem generateTicks_timestamps (n l : String) (bp bt : ℚ) (ds : List Int) (s : Nat) :
    ((generateTicks n l bp bt ds s).1).map Reading.timestamp = ds := by
  induction ds generalizing s with
  | nil => rfl
  | cons d ds ih => simp [generateTicks_cons, ih]; rfl

/-- Every reading of a station block carries the station's name. -/
theorem generateTicks_station (n l : String) (bp bt : ℚ) (ds : List Int) (s : Nat) :
    ∀ r ∈ (generateTicks n l bp bt ds s).1, r.station = n := by
  induction ds generalizing s with
  | nil => intro r h; simp [generateTicks] at h
  | cons d ds ih =>
    intro r h
    rw [generateTicks_cons] at h
    rcases List.mem_cons.mp h with h | h
    · subst h; rfl
    · exact ih _ r h

/-- Every reading of a station block is some tick's reading. -/
theorem mem_generateTicks {r : Reading} {n l : String} {bp bt : ℚ}
    {ds : List Int} {s : Nat} (h : r ∈ (generateTicks n l bp bt ds s).1) :
    ∃ d t, r = (generateTick n l bp bt d t).1 := by
  induction ds generalizing s with
  | nil => simp [generateTicks] at h
  | cons d ds ih =>
    rw [generateTicks_cons] at h
    rcases List.mem_cons.mp h with h | h
    · exact ⟨d, s, h⟩
    · exact ih h

/-- The per-station block of generate_station_data is a tick loop run from
the state left after the two baseline draws. -/
theorem generate_station_data_eq (cfg : StationConfig) (dates : List Int) (s : Nat) :
    generate_station_data cfg dates s =
      generateTicks cfg.name cfg.location
        (cfg.base_ph + (npNormal s 0 0.3).1)
        (cfg.base_temp + (npNormal (npNormal s 0 0.3).2 0 2).1)
        dates (npNormal (npNormal s 0 0.3).2 0 2).2 := rfl

/-- Unfolding of the station loop on a cons cell. -/
theorem generateStations_cons (c : StationConfig) (cs : List StationConfig)
    (dates : List Int) (s : Nat) :
    generateStations (c :: cs) dates s =
      ((generate_station_data c dates s).1 ++
        (generateStations cs dates (generate_station_data c dates s).2).1,
       (generateStations cs dates (generate_station_data c dates s).2).2) := rfl

/-- The station loop produces one block of readings per station. -/
theorem generateStations_length (cs : List StationConfig) (dates : List Int) (s : Nat) :
    ((generateStations cs dates s).1).length = cs.length * dates.length := by
  induction cs generalizing s with
  | nil => simp [generateStations]
  | cons c cs ih =>
    simp [generateStations_cons, generate_station_data_eq, generateTicks_length, ih,
      Nat.succ_mul, Nat.add_comm]

/-- Length of the hourly date grid. -/
theorem dateRange_length (start stop : Int) (h : start ≤ stop) :
    (dateRange start stop 1).length = (stop - start).toNat + 1 := by
  rw [dateRange, if_pos h, List.length_map, List.length_range, Nat.div_one]

/-- The hourly date grid is empty exactly when the start is after the stop. -/
theorem dateRange_neg (start stop : Int) (step : Nat) (h : stop < start) :
    dateRange start stop step = [] := by
  simp [dateRange, not_le.mpr h]

/-- Row count of a full generation at hourly frequency, for days ≥ 0. -/
theorem runGenerate_length (seed : Nat) (days : Int) (stations : List StationConfig)
    (now : Int) (h : 0 ≤ days) :
    (runGenerate seed days stations Freq.H now).length
      = stations.length * (24 * days.toNat + 1) := by
  have hle : now - 24 * days ≤ now := by omega
  have hgrid : (dateRange (now - 24 * days) now 1).length = 24 * days.toNat + 1 := by
    rw [dateRange_length _ _ hle]
    omega
  simp only [runGenerate, generate, Freq.step]
  rw [generateStations_length, hgrid]

/-- A generation over an empty date grid yields no rows for any stations. -/
theorem generateStations_nil_dates (cs : List StationConfig) (s : Nat) :
    ((generateStations cs [] s).1) = [] := by
  induction cs generalizing s with
  | nil => rfl
  | cons c cs ih =>
    simp [generateStations_cons, generate_station_data_eq, generateTicks, ih]

/-! ## C1 — run-to-run determinism -/

/-- C1 counterexample: with the same days and the same seed, two invocations
at different wall-clock instants (now = 0 versus now = 1) produce different
datasets — the timestamp column already differs — so the claim as stated
(byte-identical output for every pair of invocations) is false. -/
theorem generate_differs_across_instants :
    runGenerate 42 0 DEFAULT_STATIONS Freq.H 0 ≠
      runGenerate 42 0 DEFAULT_STATIONS Freq.H 1 := by
  intro h
  have h2 := congrArg (List.map Reading.timestamp) h
  rw [show (runGenerate 42 0 DEFAULT_STATIONS Freq.H 0).map Reading.timestamp
        = [0, 0, 0, 0, 0] from rfl,
      show (runGenerate 42 0 DEFAULT_STATIONS Freq.H 1).map Reading.timestamp
        = [1, 1, 1, 1, 1] from rfl] at h2
  exact absurd h2 (by decide)

/-- C1 amended: two invocations of generate with the same days, stations,
frequency and seed, each on a freshly seeded generator, produce identical
datasets provided they observe the same wall-clock instant; the dataset is a
function of (days, stations, frequency, seed, now) alone. -/
theorem generate_deterministic_same_instant :
    ∀ (seed : Nat) (days : Int) (stations : List StationConfig)
      (freq : Freq) (now : Int),
      runGenerate seed days stations freq now =
        runGenerate seed days stations freq now :=
  fun _ _ _ _ _ => rfl

/-! ## C2 — input validation -/

/-- C2 counterexample: generate performs no validation: at days = -1 (an
input the claim says must fail with InvalidArgument) it returns normally
with a zero-row dataset. -/
theorem generate_invalid_days_returns_empty :
    runGenerate 42 (-1) DEFAULT_STATIONS Freq.H 0 = [] := by
  have h : (0 : Int) < 0 - 24 * (-1) := by norm_num
  simp only [runGenerate, generate, Freq.step, dateRange_neg _ _ _ h,
    generateStations_nil_dates]

/-- C2 amended: generate never fails: days < 0 yields an empty dataset,
an empty station list yields an empty dataset, days ≥ 0 yields exactly
stations.length * (24*days + 1) rows at hourly frequency (a single tick per
station at days = 0), and for days ≥ 1 with a non-empty station list the
dataset is never empty. -/
theorem generate_no_validation :
    (∀ (days : Int) (stations : List StationConfig) (freq : Freq)
       (seed : Nat) (now : Int), days < 0 →
       runGenerate seed days stations freq now = []) ∧
    (∀ (days : Int) (freq : Freq) (seed : Nat) (now : Int),
       runGenerate seed days [] freq now = []) ∧
    (∀ (days : Int) (stations : List StationConfig) (seed : Nat) (now : Int),
       0 ≤ days →
       (runGenerate seed days stations Freq.H now).length
         = stations.length * (24 * days.toNat + 1)) ∧
    (∀ (days : Int) (stations : List StationConfig) (seed : Nat) (now : Int),
       1 ≤ days → stations ≠ [] →
       (runGenerate seed days stations Freq.H now).length ≠ 0) := by
  refine ⟨?_, ?_, ?_, ?_⟩
  · intro days stations freq seed now hd
    have h : now < now - 24 * days := by omega
    simp only [runGenerate, generate, dateRange_neg _ _ _ h,
      generateStations_nil_dates]
  · intro days freq seed now
    rfl
  · intro days stations seed now hd
    exact runGenerate_length seed days stations now hd
  · intro days stations seed now hd hs
    rw [runGenerate_length seed days stations now (by omega)]
    have : stations.length ≠ 0 := fun h => hs (List.length_eq_zero.mp h)
    positivity

/-- Witness for generate_no_validation: all four parts at concrete inputs. -/
theorem generate_no_validation_witness :
    runGenerate 7 (-2) DEFAULT_STATIONS Freq.H 5 = [] ∧
    runGenerate 7 3 [] Freq.H 5 = [] ∧
    (runGenerate 7 2 DEFAULT_STATIONS Freq.H 5).length
      = DEFAULT_STATIONS.length * (24 * (2 : Int).toNat + 1) ∧
    (runGenerate 7 2 DEFAULT_STATIONS Freq.H 5).length ≠ 0 :=
  ⟨generate_no_validation.1 (-2) DEFAULT_STATIONS Freq.H 7 5 (by norm_num),
   generate_no_validation.2.1 3 Freq.H 7 5,
   generate_no_validation.2.2.1 2 DEFAULT_STATIONS 7 5 (by norm_num),
   generate_no_validation.2.2.2 2 DEFAULT_STATIONS 7 5 (by norm_num)
     (by simp [DEFAULT_STATIONS])⟩

/-! ## C5 — row count and timestamp grid -/

/-- The timestamps of a station block are the date grid. -/
theorem generate_station_data_timestamps (c : StationConfig) (dates : List Int)
    (s : Nat) :
    ((generate_station_data c dates s).1).map Reading.timestamp = dates := by
  rw [generate_station_data_eq]
  exact generateTicks_timestamps _ _ _ _ _ _

/-- Every reading of a station block carries the station's name. -/
theorem generate_station_data_station (c : StationConfig) (dates : List Int)
    (s : Nat) :
    ∀ r ∈ (generate_station_data c dates s).1, r.station = c.name := by
  rw [generate_station_data_eq]
  exact generateTicks_station _ _ _ _ _ _

/-- Timestamps surviving any station filter come from the date grid. -/
theorem generateStations_filter_timestamps_subset
    (cs : List StationConfig) (dates : List Int) (s : Nat) (n : String) :
    ((((generateStations cs dates s).1).filter
        (fun r => decide (r.station = n))).map Reading.timestamp).toFinset
      ⊆ dates.toFinset := by
  induction cs generalizing s with
  | nil => simp [generateStations]
  | cons c cs ih =>
    rw [generateStations_cons]
    simp only [List.filter_append, List.map_append, List.toFinset_append]
    apply Finset.union_subset
    · intro x hx
      simp only [List.mem_toFinset, List.mem_map, List.mem_filter] at hx
      obtain ⟨r, ⟨hrB, _⟩, rfl⟩ := hx
      have := List.mem_map_of_mem Reading.timestamp hrB
      rw [generate_station_data_timestamps] at this
      exact List.mem_toFinset.mpr this
    · exact ih _

/-- For a station name occurring in the list, the filtered timestamps are
exactly the date grid. -/
theorem generateStations_filter_timestamps_eq
    (cs : List StationConfig) (dates : List Int) (s : Nat) (n : String)
    (hex : ∃ c ∈ cs, c.name = n) :
    ((((generateStations cs dates s).1).filter
        (fun r => decide (r.station = n))).map Reading.timestamp).toFinset
      = dates.toFinset := by
  induction cs generalizing s with
  | nil => simp at hex
  | cons c cs ih =>
    rw [generateStations_cons]
    simp only [List.filter_append, List.map_append, List.toFinset_append]
    by_cases hc : c.name = n
    · have hblock : ((generate_station_data c dates s).1).filter
          (fun r => decide (r.station = n)) = (generate_station_data c dates s).1 := by
        apply List.filter_eq_self.mpr
        intro a ha
        simp [generate_station_data_station c dates s a ha, hc]
      rw [hblock, generate_station_data_timestamps]
      exact subset_antisymm
        (Finset.union_subset Finset.Subset.rfl
          (generateStations_filter_timestamps_subset cs dates _ n))
        Finset.subset_union_left
    · have hblock : ((generate_station_data c dates s).1).filter
          (fun r => decide (r.station = n)) = [] := by
        apply List.filter_eq_nil_iff.mpr
        intro a ha
        simp [generate_station_data_station c dates s a ha, hc]
      rw [hblock]
      simp only [List.map_nil, List.toFinset_nil, Finset.empty_union]
      apply ih
      rcases hex with ⟨c', hc', hn⟩
      rcases List.mem_cons.mp hc' with rfl | h
      · exact absurd hn hc
      · exact ⟨c', h, hn⟩

/-- C5: for every positive days, non-empty station list, seed and wall-clock
instant, hourly generation yields exactly stations.length * (24*days + 1)
rows, and for every station of the list the set of timestamps of its rows is
exactly the requested hourly grid from now - 24*days to now. -/
theorem generate_row_count_and_grid :
    ∀ (days : Int) (stations : List StationConfig) (seed : Nat) (now : Int),
      1 ≤ days → stations ≠ [] →
      (runGenerate seed days stations Freq.H now).length
        = stations.length * (24 * days.toNat + 1) ∧
      ∀ cfg ∈ stations,
        (((runGenerate seed days stations Freq.H now).filter
            (fun r => decide (r.station = cfg.name))).map Reading.timestamp).toFinset
          = (dateRange (now - 24 * days) now 1).toFinset := by
  intro days stations seed now hd hs
  refine ⟨runGenerate_length _ _ _ _ (by omega), ?_⟩
  intro cfg hcfg
  exact generateStations_filter_timestamps_eq stations _ (npSeed seed) cfg.name
    ⟨cfg, hcfg, rfl⟩

/-- Witness for generate_row_count_and_grid: one day, one station, hourly. -/
theorem generate_row_count_and_grid_witness :
    (runGenerate 0 1 [⟨"A", "L", 7, 22⟩] Freq.H 0).length
      = [(⟨"A", "L", 7, 22⟩ : StationConfig)].length * (24 * (1 : Int).toNat + 1) ∧
    ∀ cfg ∈ [(⟨"A", "L", 7, 22⟩ : StationConfig)],
      (((runGenerate 0 1 [⟨"A", "L", 7, 22⟩] Freq.H 0).filter
          (fun r => decide (r.station = cfg.name))).map Reading.timestamp).toFinset
        = (dateRange (0 - 24 * 1) 0 1).toFinset :=
  generate_row_count_and_grid 1 [⟨"A", "L", 7, 22⟩] 0 0 (by norm_num) (by simp)

/-! ## C6 — range invariants -/

/-- Bounds of the clipped pH computation. -/
theorem calculate_ph_bounds (b hf noise : ℚ) :
    4 ≤ calculate_ph b hf noise ∧ calculate_ph b hf noise ≤ 10 := by
  unfold calculate_ph npClip
  constructor
  · exact le_min (by norm_num) (le_trans (by norm_num) (le_max_left (4.0 : ℚ) _))
  · exact le_trans (min_le_left _ _) (by norm_num)

/-- Every reading of a tick satisfies the range invariants. -/
theorem generateTick_bounds (n l : String) (bp bt : ℚ) (d : Int) (s : Nat) :
    4 ≤ ((generateTick n l bp bt d s).1).ph ∧
    ((generateTick n l bp bt d s).1).ph ≤ 10 ∧
    0 ≤ ((generateTick n l bp bt d s).1).turbidity ∧
    0 ≤ ((generateTick n l bp bt d s).1).dissolved_oxygen ∧
    0 ≤ ((generateTick n l bp bt d s).1).conductivity ∧
    0 ≤ ((generateTick n l bp bt d s).1).total_dissolved_solids ∧
    0 ≤ ((generateTick n l bp bt d s).1).nitrates :=
  ⟨(calculate_ph_bounds _ _ _).1, (calculate_ph_bounds _ _ _).2,
   le_max_left 0 _, le_max_left 0 _, le_max_left 0 _, le_max_left 0 _,
   le_max_left 0 _⟩

/-- Every reading of a generation is some tick's reading. -/
theorem mem_generateStations {r : Reading} {cs : List StationConfig}
    {dates : List Int} {s : Nat} (h : r ∈ (generateStations cs dates s).1) :
    ∃ n l bp bt d t, r = (generateTick n l bp bt d t).1 := by
  induction cs generalizing s with
  | nil => simp [generateStations] at h
  | cons c cs ih =>
    rw [generateStations_cons] at h
    rcases List.mem_append.mp h with h | h
    · rw [generate_station_data_eq] at h
      obtain ⟨d, t, rfl⟩ := mem_generateTicks h
      exact ⟨_, _, _, _, d, t, rfl⟩
    · exact ih h

/-- C6: every reading produced by generate satisfies 4 ≤ ph ≤ 10 and
nonnegative turbidity, dissolved oxygen, conductivity, total dissolved
solids and nitrates, for every choice of days, stations, frequency, seed
and wall-clock instant. -/
theorem generate_range_invariants :
    ∀ (days : Int) (stations : List StationConfig) (freq : Freq)
      (seed : Nat) (now : Int) (r : Reading),
      r ∈ runGenerate seed days stations freq now →
      4 ≤ r.ph ∧ r.ph ≤ 10 ∧ 0 ≤ r.turbidity ∧ 0 ≤ r.dissolved_oxygen ∧
      0 ≤ r.conductivity ∧ 0 ≤ r.total_dissolved_solids ∧ 0 ≤ r.nitrates := by
  intro days stations freq seed now r h
  obtain ⟨n, l, bp, bt, d, t, rfl⟩ := mem_generateStations h
  exact generateTick_bounds n l bp bt d t

/-- Witness for generate_range_invariants: the first reading of a concrete
single-tick generation. -/
theorem generate_range_invariants_witness :
    4 ≤ ((runGenerate 42 0 [⟨"A", "L", 7, 22⟩] Freq.H 0).head!).ph ∧
    ((runGenerate 42 0 [⟨"A", "L", 7, 22⟩] Freq.H 0).head!).ph ≤ 10 ∧
    0 ≤ ((runGenerate 42 0 [⟨"A", "L", 7, 22⟩] Freq.H 0).head!).turbidity ∧
    0 ≤ ((runGenerate 42 0 [⟨"A", "L", 7, 22⟩] Freq.H 0).head!).dissolved_oxygen ∧
    0 ≤ ((runGenerate 42 0 [⟨"A", "L", 7, 22⟩] Freq.H 0).head!).conductivity ∧
    0 ≤ ((runGenerate 42 0 [⟨"A", "L", 7, 22⟩] Freq.H 0).head!).total_dissolved_solids ∧
    0 ≤ ((runGenerate 42 0 [⟨"A", "L", 7, 22⟩] Freq.H 0).head!).nitrates := by
  have hne : runGenerate 42 0 [⟨"A", "L", 7, 22⟩] Freq.H 0 ≠ [] := by
    apply List.length_pos.mp
    rw [runGenerate_length 42 0 [⟨"A", "L", 7, 22⟩] 0 le_rfl]
    norm_num
  exact generate_range_invariants 0 [⟨"A", "L", 7, 22⟩] Freq.H 42 0 _
    (List.head!_mem_self hne)

/-! ## C7/C8 — anomaly injection -/

/-- A concrete reading used to witness the anomaly-injection theorems. -/
def sampleReading : Reading :=
  ⟨0, "A", "L", 7, 1, 8, 20, 200, 150, 2, "Normal"⟩

/-- C7: add_anomaly preserves the row count; exactly the rows matching the
station and the inclusive time window get the chosen parameter multiplied by
the severity factor, with every other field of those rows and every
non-matching row unchanged; the severity factors are low = 1.3,
medium = 1.6, high = 2.0 and 1.5 for any other severity.  (The input list
itself is untouched by construction, the output being a fresh copy.) -/
theorem add_anomaly_frame :
    ∀ (df : List Reading) (station : String) (parameter : Param)
      (start_time duration_hours : Int) (severity : String) (i : Nat)
      (r : Reading), df[i]? = some r →
      ((add_anomaly df station parameter start_time duration_hours severity).length
        = df.length) ∧
      (anomalyMask station start_time duration_hours r →
        (add_anomaly df station parameter start_time duration_hours severity)[i]?
          = some (r.set parameter (· * severityMultiplier severity)) ∧
        (r.set parameter (· * severityMultiplier severity)).get parameter
          = r.get parameter * severityMultiplier severity ∧
        (∀ q, q ≠ parameter →
          (r.set parameter (· * severityMultiplier severity)).get q = r.get q) ∧
        (r.set parameter (· * severityMultiplier severity)).timestamp = r.timestamp ∧
        (r.set parameter (· * severityMultiplier severity)).station = r.station ∧
        (r.set parameter (· * severityMultiplier severity)).location = r.location ∧
        (r.set parameter (· * severityMultiplier severity)).status = r.status) ∧
      (¬ anomalyMask station start_time duration_hours r →
        (add_anomaly df station parameter start_time duration_hours severity)[i]?
          = some r) ∧
      severityMultiplier "low" = 1.3 ∧ severityMultiplier "medium" = 1.6 ∧
      severityMultiplier "high" = 2.0 ∧
      (severity ≠ "low" → severity ≠ "medium" → severity ≠ "high" →
        severityMultiplier severity = 1.5) := by
  intro df station parameter t0 dur severity i r hi
  refine ⟨by simp [add_anomaly], ?_, ?_, ?_, ?_, ?_, ?_⟩
  · intro hm
    refine ⟨?_, ?_, ?_, ?_, ?_, ?_, ?_⟩
    · simp only [add_anomaly, List.getElem?_map, hi, Option.map_some']
      rw [if_pos hm]
    · cases parameter <;> simp [Reading.get, Reading.set]
    · intro q hq
      cases parameter <;> cases q <;> simp_all [Reading.get, Reading.set]
    · cases parameter <;> rfl
    · cases parameter <;> rfl
    · cases parameter <;> rfl
    · cases parameter <;> rfl
  · intro hm
    simp only [add_anomaly, List.getElem?_map, hi, Option.map_some']
    rw [if_neg hm]
  · simp +decide [severityMultiplier, multipliers, List.lookup]
  · simp +decide [severityMultiplier, multipliers, List.lookup]
  · simp +decide [severityMultiplier, multipliers, List.lookup]
  · intro h1 h2 h3
    have e1 : (severity == "low") = false := beq_eq_false_iff_ne.mpr h1
    have e2 : (severity == "medium") = false := beq_eq_false_iff_ne.mpr h2
    have e3 : (severity == "high") = false := beq_eq_false_iff_ne.mpr h3
    simp [severityMultiplier, multipliers, List.lookup, e1, e2, e3]

/-- Witness for add_anomaly_frame: a one-row dataset whose row matches the
mask, injected at high severity on pH. -/
theorem add_anomaly_frame_witness :
    (add_anomaly [sampleReading] "A" Param.ph 0 5 "high").length
      = [sampleReading].length ∧
    (add_anomaly [sampleReading] "A" Param.ph 0 5 "high")[0]?
      = some (sampleReading.set Param.ph (· * severityMultiplier "high")) ∧
    severityMultiplier "high" = 2.0 :=
  have h := add_anomaly_frame [sampleReading] "A" Param.ph 0 5 "high" 0
    sampleReading rfl
  ⟨h.1, (h.2.1 ⟨rfl, by norm_num [sampleReading], by norm_num [sampleReading]⟩).1,
   h.2.2.2.2.2.1⟩

/-- C8: when no row matches the station and the time window, add_anomaly is
a silent no-op: it raises nothing and returns a dataset equal to its
input. -/
theorem add_anomaly_nomatch_noop :
    ∀ (df : List Reading) (station : String) (parameter : Param)
      (start_time duration_hours : Int) (severity : String),
      (∀ r ∈ df, ¬ anomalyMask station start_time duration_hours r) →
      add_anomaly df station parameter start_time duration_hours severity = df := by
  intro df station parameter t0 dur severity h
  induction df with
  | nil => rfl
  | cons a l ih =>
    have ha := h a (List.mem_cons_self a l)
    have hl := fun r hr => h r (List.mem_cons_of_mem a hr)
    simp only [add_anomaly, List.map_cons, if_neg ha]
    exact congrArg (List.cons a) (ih hl)

/-- Witness for add_anomaly_nomatch_noop: a one-row dataset and a station
name matching no row. -/
theorem add_anomaly_nomatch_noop_witness :
    add_anomaly [sampleReading] "B" Param.ph 0 5 "high" = [sampleReading] :=
  add_anomaly_nomatch_noop [sampleReading] "B" Param.ph 0 5 "high"
    (by
      intro r hr
      rw [List.mem_singleton.mp hr]
      intro hm
      exact absurd hm.1 (by simp [sampleReading]))

/-! ## C9 — status labels are independent of the baseline configuration -/

/-- The status drawn at a tick and the stream state left behind depend only
on the date and the incoming state, not on the station name, location or
baseline values. -/
theorem generateTick_status_state (n1 l1 : String) (b1 t1 : ℚ)
    (n2 l2 : String) (b2 t2 : ℚ) (d : Int) (s : Nat) :
    ((generateTick n1 l1 b1 t1 d s).1).status
      = ((generateTick n2 l2 b2 t2 d s).1).status ∧
    (generateTick n1 l1 b1 t1 d s).2 = (generateTick n2 l2 b2 t2 d s).2 :=
  ⟨rfl, rfl⟩

/-- Status sequences and final states of a tick loop are independent of the
station identity and baselines. -/
theorem generateTicks_status_state (n1 l1 : String) (b1 t1 : ℚ)
    (n2 l2 : String) (b2 t2 : ℚ) (ds : List Int) (s : Nat) :
    ((generateTicks n1 l1 b1 t1 ds s).1).map Reading.status
      = ((generateTicks n2 l2 b2 t2 ds s).1).map Reading.status ∧
    (generateTicks n1 l1 b1 t1 ds s).2 = (generateTicks n2 l2 b2 t2 ds s).2 := by
  induction ds generalizing s with
  | nil => exact ⟨rfl, rfl⟩
  | cons d ds ih =>
    rw [generateTicks_cons, generateTicks_cons]
    have ht := generateTick_status_state n1 l1 b1 t1 n2 l2 b2 t2 d s
    constructor
    · simp only [List.map_cons, ht.1, ht.2]
      rw [(ih ((generateTick n2 l2 b2 t2 d s).2)).1]
    · rw [ht.2, (ih ((generateTick n2 l2 b2 t2 d s).2)).2]

/-- Status sequences and final states of a station block are independent of
the baseline values of the configuration. -/
theorem generate_station_data_status_state (c1 c2 : StationConfig)
    (dates : List Int) (s : Nat) :
    ((generate_station_data c1 dates s).1).map Reading.status
      = ((generate_station_data c2 dates s).1).map Reading.status ∧
    (generate_station_data c1 dates s).2 = (generate_station_data c2 dates s).2 := by
  rw [generate_station_data_eq, generate_station_data_eq]
  exact generateTicks_status_state _ _ _ _ _ _ _ _ dates _

/-- Status sequences of a whole generation are independent of the baseline
values of the station configurations. -/
theorem generateStations_status_state (cs1 cs2 : List StationConfig)
    (h : List.Forall₂ (fun a b => a.name = b.name ∧ a.location = b.location) cs1 cs2)
    (dates : List Int) (s : Nat) :
    ((generateStations cs1 dates s).1).map Reading.status
      = ((generateStations cs2 dates s).1).map Reading.status ∧
    (generateStations cs1 dates s).2 = (generateStations cs2 dates s).2 := by
  induction h generalizing s with
  | nil => exact ⟨rfl, rfl⟩
  | @cons a b l1 l2 hab hrest ih =>
    rw [generateStations_cons, generateStations_cons]
    have hb := generate_station_data_status_state a b dates s
    constructor
    · simp only [List.map_append, hb.1, hb.2]
      rw [(ih ((generate_station_data b dates s).2)).1]
    · rw [hb.2, (ih ((generate_station_data b dates s).2)).2]

/-- C9: the status field is an independent categorical draw from the random
stream and is not derived from the station baselines: two generation runs
consuming the same stream (same seed) with station configurations equal in
names and locations but differing arbitrarily in base_ph and base_temp
produce identical status sequences. -/
theorem status_independent_of_baselines :
    ∀ (days : Int) (freq : Freq) (seed : Nat) (now : Int)
      (cfgs1 cfgs2 : List StationConfig),
      List.Forall₂ (fun a b => a.name = b.name ∧ a.location = b.location)
        cfgs1 cfgs2 →
      (runGenerate seed days cfgs1 freq now).map Reading.status =
        (runGenerate seed days cfgs2 freq now).map Reading.status := by
  intro days freq seed now cfgs1 cfgs2 h
  exact (generateStations_status_state cfgs1 cfgs2 h _ _).1

/-- Witness for status_independent_of_baselines: two concrete one-station
configurations differing in base_ph and base_temp only. -/
theorem status_independent_of_baselines_witness :
    (runGenerate 3 0 [⟨"A", "L", 7, 22⟩] Freq.H 0).map Reading.status =
      (runGenerate 3 0 [⟨"A", "L", 9.5, 30⟩] Freq.H 0).map Reading.status :=
  status_independent_of_baselines 0 Freq.H 3 0 _ _
    (List.Forall₂.cons ⟨rfl, rfl⟩ List.Forall₂.nil)

end Dashboard
